import Mathlib

/-!
# TB6612FNG dual DC motor driver (`tb6612.c`)

A shallow embedding of the sysfs attribute handlers, `tb6612_probe` and
`tb6612_remove` of the driver, together with the properties of its
specification that they satisfy (or fail to satisfy).

Conventions of the embedding

* `unsigned long`, `unsigned int`, `unsigned char` and `size_t` values are
  natural numbers; a narrowing assignment is an explicit `%`.
* `int` / `ssize_t` return values are integers; an error is `-errno`.
* A C string is a `List Char`, one `Char` per byte, terminated by the end of
  the list or by the first NUL character.
* The kernel services the driver calls (`kstrtoul`, `strncmp`, `pwm_*`,
  `gpiod_*`, `devm_*`, `sysfs_*`) are modelled after their kernel contracts.
  Whatever the platform decides (does a lookup succeed, does the PWM chip
  accept a request) is read from an `Env` record.
* The devices behind the handles are the fields of `Hw`; every call the
  driver makes on an output device is appended to `World.log`.
-/

namespace TB6612

/-! ## Constants -/

/-- Source: `#define MOTOR_PWM_PERIOD 10000000`. -/
def MOTOR_PWM_PERIOD : Nat := 10000000

/-- Source: `#define MOTOR_PWM_DUTY_MUL 100000`. -/
def MOTOR_PWM_DUTY_MUL : Nat := 100000

/-- Kernel errno `EINVAL`. -/
def EINVAL : Int := 22

/-- Kernel errno `ENOMEM`. -/
def ENOMEM : Int := 12

/-- Kernel errno `ERANGE`. -/
def ERANGE : Int := 34

/-- Source: `enum motor_mode`, first enumerator (value 0). -/
def MOTOR_MODE_CW : Nat := 0

/-- Source: `enum motor_mode`, second enumerator (value 1). -/
def MOTOR_MODE_CCW : Nat := 1

/-- Source: `enum motor_mode`, third enumerator (value 2). -/
def MOTOR_MODE_STOP : Nat := 2

/-! ## Devices and handles -/

/-- The two PWM outputs the board description names `motor_a` and `motor_b`. -/
inductive Motor where
  | a
  | b
deriving DecidableEq

/-- The five GPIO lines the board description names
`ain1`, `ain2`, `bin1`, `bin2` and `stby`. -/
inductive Pin where
  | ain1
  | ain2
  | bin1
  | bin2
  | stby
deriving DecidableEq

/-- Kernel `enum pwm_polarity`. -/
inductive pwm_polarity where
  | PWM_POLARITY_NORMAL
  | PWM_POLARITY_INVERSED
deriving DecidableEq

/-- A `struct pwm_device *` as the driver holds it: `NULL` (zeroed memory),
a valid handle on one of the PWM outputs, or an `ERR_PTR(-errno)`. -/
inductive pwm_handle where
  | NULL
  | dev (m : Motor)
  | ERR_PTR (e : Int)
deriving DecidableEq

/-- A `struct gpio_desc *` as the driver holds it: `NULL` (zeroed memory),
a valid descriptor of one of the lines, or an `ERR_PTR(-errno)`. -/
inductive gpio_desc where
  | NULL
  | desc (p : Pin)
  | ERR_PTR (e : Int)
deriving DecidableEq

/-- Kernel `IS_ERR` on a PWM handle. -/
def pwm_handle.IS_ERR : pwm_handle → Bool
  | .ERR_PTR _ => true
  | _ => false

/-- Kernel `IS_ERR` on a GPIO descriptor. -/
def gpio_desc.IS_ERR : gpio_desc → Bool
  | .ERR_PTR _ => true
  | _ => false

/-- The state of one PWM output (the fields of the kernel's `struct pwm_device`
the driver can influence). -/
structure pwm_device where
  duty_cycle : Nat
  period : Nat
  polarity : pwm_polarity
  enabled : Bool
deriving DecidableEq

/-- The output devices of the board: two PWM outputs and the logical value
last driven on each of the five GPIO lines. -/
structure Hw where
  pwm_a : pwm_device
  pwm_b : pwm_device
  ain1 : Nat
  ain2 : Nat
  bin1 : Nat
  bin2 : Nat
  stby : Nat
deriving DecidableEq

/-! ## Driver data -/

/-- Source: `struct motor_data`. `speed` is an `unsigned int`, `mode` the
integer value of an `enum motor_mode`. -/
structure motor_data where
  speed_pwm : pwm_handle
  in1_gpio : gpio_desc
  in2_gpio : gpio_desc
  speed : Nat
  mode : Nat
deriving DecidableEq

/-- Source: `struct tb6612_data`. `standby` is an `unsigned char`. -/
structure tb6612_data where
  motor_a : motor_data
  motor_b : motor_data
  standby : Nat
  standby_gpio : gpio_desc
deriving DecidableEq

/-- One call of the driver on an output device. -/
inductive HwCall where
  | pwm_config (m : Motor) (duty_ns period_ns : Nat)
  | pwm_set_polarity (m : Motor) (p : pwm_polarity)
  | pwm_enable (m : Motor)
  | pwm_disable (m : Motor)
  | gpiod_set_value (p : Pin) (value : Nat)
deriving DecidableEq

/-- Everything the driver code reads or writes: the `tb6612_data` of the
platform device, the output devices, the calls made on them so far, whether
`platform_set_drvdata` has run and whether the sysfs attribute group
`tb6612_group` is published. -/
structure World where
  data : tb6612_data
  hw : Hw
  log : List HwCall
  drvdata : Bool
  sysfs_group : Bool
deriving DecidableEq

/-- What the platform answers during the calls the driver makes. A return code
is `0` for success and `-errno` otherwise; the PWM chip callbacks may depend on
the current device state. -/
structure Env where
  /-- Is `dev->of_node` non-NULL? -/
  of_node : Bool
  /-- Does `devm_kzalloc` return memory? -/
  devm_kzalloc : Bool
  /-- Outcome of `devm_pinctrl_get_select_default` (0, or the errno it wraps). -/
  devm_pinctrl_get_select_default : Int
  /-- Outcome of `devm_pwm_get` for each output (0, or the errno it wraps). -/
  devm_pwm_get : Motor → Int
  /-- Return code of the PWM chip's `config` callback. -/
  chip_config : Hw → Motor → Nat → Nat → Int
  /-- Return code of the PWM chip's `set_polarity` callback. -/
  chip_set_polarity : Hw → Motor → pwm_polarity → Int
  /-- Return code of the PWM chip's `enable` callback. -/
  chip_enable : Hw → Motor → Int
  /-- Outcome of `devm_gpiod_get` for each line (0, or the errno it wraps). -/
  devm_gpiod_get : Pin → Int
  /-- Return code of `sysfs_create_group`. -/
  sysfs_create_group : Int

/-! ## Kernel services -/

/-- The NUL character that terminates a C string. -/
def NUL : Char := Char.ofNat 0

/-- The newline character. -/
def NL : Char := Char.ofNat 10

/-- C `strlen`: the number of characters before the terminator. -/
def strlen : List Char → Nat
  | [] => 0
  | c :: cs => if c = NUL then 0 else strlen cs + 1

/-- C `strncmp`: compare at most `n` characters, stopping at a terminator;
the result is zero iff no difference was found. -/
def strncmp : List Char → List Char → Nat → Int
  | _, _, 0 => 0
  | s1, s2, n + 1 =>
    let c1 := s1.headD NUL
    let c2 := s2.headD NUL
    if c1 ≠ c2 then (c1.toNat : Int) - (c2.toNat : Int)
    else if c1 = NUL then 0
    else strncmp s1.tail s2.tail n

/-- Kernel `_parse_integer` digit value: `0`-`9`, then `a`-`f` in either case. -/
def digit_val (c : Char) : Option Nat :=
  let lc := c.toNat ||| 0x20
  if 48 ≤ c.toNat ∧ c.toNat ≤ 57 then some (c.toNat - 48)
  else if 97 ≤ lc ∧ lc ≤ 102 then some (lc - 97 + 10)
  else none

/-- Kernel `_parse_integer`: consume the longest run of digits below `base`,
starting from accumulator `res` and count `rv`; returns the value (not
truncated), the number of digits consumed and the rest of the string. -/
def _parse_integer (base : Nat) : List Char → Nat → Nat → Nat × Nat × List Char
  | [], res, rv => (res, rv, [])
  | c :: cs, res, rv =>
    match digit_val c with
    | none => (res, rv, c :: cs)
    | some val =>
      if val ≥ base then (res, rv, c :: cs)
      else _parse_integer base cs (res * base + val) (rv + 1)

/-- Kernel `kstrtoul(s, base, &res)` for an explicit base other than 16, on a
64-bit `unsigned long`: an optional `+`, at least one digit, an optional single
newline, then the end of the string. Returns the return code and the content of
`*res` afterwards: the parsed value on success, and on failure the content it
had before the call (`res0`), since `*res` is written only on success. -/
def kstrtoul (s : List Char) (base : Nat) (res0 : Nat) : Int × Nat :=
  let s := if s.head? = some '+' then s.tail else s
  match _parse_integer base s 0 0 with
  | (res, rv, rest) =>
    if res ≥ 2 ^ 64 then (-ERANGE, res0)
    else if rv = 0 then (-EINVAL, res0)
    else
      let rest := if rest.head? = some NL then rest.tail else rest
      if rest.headD NUL ≠ NUL then (-EINVAL, res0)
      else (0, res)

/-- C `sprintf` of an already formatted text: the buffer content and the number
of characters written. -/
def sprintf (text : String) : Int × String := ((text.length : Int), text)

/-- Update the PWM output `m`. -/
def Hw.set_pwm (hw : Hw) (m : Motor) (p : pwm_device) : Hw :=
  match m with
  | .a => { hw with pwm_a := p }
  | .b => { hw with pwm_b := p }

/-- Read the PWM output `m`. -/
def Hw.pwm (hw : Hw) (m : Motor) : pwm_device :=
  match m with
  | .a => hw.pwm_a
  | .b => hw.pwm_b

/-- Drive line `p` to `v`. -/
def Hw.set_pin (hw : Hw) (p : Pin) (v : Nat) : Hw :=
  match p with
  | .ain1 => { hw with ain1 := v }
  | .ain2 => { hw with ain2 := v }
  | .bin1 => { hw with bin1 := v }
  | .bin2 => { hw with bin2 := v }
  | .stby => { hw with stby := v }

/-- Kernel `pwm_config(pwm, duty_ns, period_ns)`: rejects an invalid handle or
a request with `period_ns = 0` or `duty_ns > period_ns` with `-EINVAL`; asks the
chip; on success records the new duty and period, leaving polarity and
enablement alone. The driver passes `int` arguments that are at most
`MOTOR_PWM_PERIOD`, so no conversion is modelled; it never passes an `ERR_PTR`
handle, since `tb6612_probe` returns as soon as `devm_pwm_get` yields one. -/
def pwm_config (env : Env) (pwm : pwm_handle) (duty_ns period_ns : Nat) (w : World) :
    Int × World :=
  match pwm with
  | .dev m =>
    let w := { w with log := w.log ++ [HwCall.pwm_config m duty_ns period_ns] }
    if period_ns = 0 ∨ duty_ns > period_ns then (-EINVAL, w)
    else
      let err := env.chip_config w.hw m duty_ns period_ns
      if err ≠ 0 then (err, w)
      else
        let p := { w.hw.pwm m with duty_cycle := duty_ns, period := period_ns }
        (err, { w with hw := w.hw.set_pwm m p })
  | _ => (-EINVAL, w)

/-- Kernel `pwm_set_polarity(pwm, polarity)`: asks the chip and on success
records the polarity. -/
def pwm_set_polarity (env : Env) (pwm : pwm_handle) (polarity : pwm_polarity) (w : World) :
    Int × World :=
  match pwm with
  | .dev m =>
    let w := { w with log := w.log ++ [HwCall.pwm_set_polarity m polarity] }
    let err := env.chip_set_polarity w.hw m polarity
    if err ≠ 0 then (err, w)
    else (err, { w with hw := w.hw.set_pwm m ({ w.hw.pwm m with polarity := polarity }) })
  | _ => (-EINVAL, w)

/-- Kernel `pwm_enable(pwm)`: asks the chip and on success marks the output
enabled. -/
def pwm_enable (env : Env) (pwm : pwm_handle) (w : World) : Int × World :=
  match pwm with
  | .dev m =>
    let w := { w with log := w.log ++ [HwCall.pwm_enable m] }
    let err := env.chip_enable w.hw m
    if err ≠ 0 then (err, w)
    else (err, { w with hw := w.hw.set_pwm m ({ w.hw.pwm m with enabled := true }) })
  | _ => (-EINVAL, w)

/-- Kernel `pwm_disable(pwm)`: stops the output. -/
def pwm_disable (pwm : pwm_handle) (w : World) : World :=
  match pwm with
  | .dev m =>
    { w with
      log := w.log ++ [HwCall.pwm_disable m],
      hw := w.hw.set_pwm m ({ w.hw.pwm m with enabled := false }) }
  | _ => w

/-- Kernel `gpiod_set_value(desc, value)`: drives the line to the logical value
(any non-zero `value` is 1); does nothing on an invalid descriptor. -/
def gpiod_set_value (desc : gpio_desc) (value : Nat) (w : World) : World :=
  match desc with
  | .desc p =>
    let v := if value = 0 then 0 else 1
    { w with log := w.log ++ [HwCall.gpiod_set_value p v], hw := w.hw.set_pin p v }
  | _ => w

/-- Kernel `devm_pwm_get(dev, con_id)`: a handle on the named output, or an
`ERR_PTR`. -/
def devm_pwm_get (env : Env) (m : Motor) : pwm_handle :=
  if env.devm_pwm_get m = 0 then .dev m else .ERR_PTR (env.devm_pwm_get m)

/-- Kernel `devm_gpiod_get(dev, con_id, GPIOD_OUT_LOW)`: on success the line is
made an output driving logical 0 and its descriptor is returned; otherwise an
`ERR_PTR` is returned and the line is not touched. -/
def devm_gpiod_get (env : Env) (p : Pin) (w : World) : gpio_desc × World :=
  if env.devm_gpiod_get p = 0 then (.desc p, { w with hw := w.hw.set_pin p 0 })
  else (.ERR_PTR (env.devm_gpiod_get p), w)

/-! ## The sysfs attribute handlers

A `store` handler takes the text written (`buf`) and its length (`count`), and
returns the `ssize_t` result with the new world. Handlers that parse a number
declare `unsigned long tmp;` without an initialiser: `tmp0` is the content that
variable happens to have before `kstrtoul` runs. A `show` handler returns the
`ssize_t` result and the content of the (initially zeroed) output page. -/

/-- Source: `tb6612_show_motor_a_speed`. -/
def tb6612_show_motor_a_speed (w : World) : Int × String :=
  sprintf (toString w.data.motor_a.speed ++ "\n")

/-- Source: `tb6612_store_motor_a_speed`. The result of `kstrtoul` is stored
in `error` and overwritten before it is read; `tmp < 0` is kept as written
(never true for an unsigned value). -/
def tb6612_store_motor_a_speed (env : Env) (tmp0 : Nat) (w : World)
    (buf : List Char) (count : Nat) : Int × World :=
  match kstrtoul buf 10 tmp0 with
  | (_error, tmp) =>
    if tmp < 0 ∨ tmp > 100 then (-EINVAL, w)
    else
      match pwm_config env w.data.motor_a.speed_pwm (tmp * MOTOR_PWM_DUTY_MUL)
          MOTOR_PWM_PERIOD w with
      | (error, w) =>
        if error < 0 then (error, w)
        else
          let motor_a := { w.data.motor_a with speed := tmp % 2 ^ 32 }
          ((count : Int), { w with data := { w.data with motor_a := motor_a } })

/-- Source: `tb6612_show_motor_b_speed`. -/
def tb6612_show_motor_b_speed (w : World) : Int × String :=
  sprintf (toString w.data.motor_b.speed ++ "\n")

/-- Source: `tb6612_store_motor_b_speed`. -/
def tb6612_store_motor_b_speed (env : Env) (tmp0 : Nat) (w : World)
    (buf : List Char) (count : Nat) : Int × World :=
  match kstrtoul buf 10 tmp0 with
  | (_error, tmp) =>
    if tmp < 0 ∨ tmp > 100 then (-EINVAL, w)
    else
      match pwm_config env w.data.motor_b.speed_pwm (tmp * MOTOR_PWM_DUTY_MUL)
          MOTOR_PWM_PERIOD w with
      | (error, w) =>
        if error < 0 then (error, w)
        else
          let motor_b := { w.data.motor_b with speed := tmp % 2 ^ 32 }
          ((count : Int), { w with data := { w.data with motor_b := motor_b } })

/-- Source: `tb6612_show_motor_a_mode`. -/
def tb6612_show_motor_a_mode (w : World) : Int × String :=
  if w.data.motor_a.mode = MOTOR_MODE_CW then sprintf "cw\n"
  else if w.data.motor_a.mode = MOTOR_MODE_CCW then sprintf "ccw\n"
  else if w.data.motor_a.mode = MOTOR_MODE_STOP then sprintf "stop\n"
  else (-EINVAL, "")

/-- Source: `tb6612_store_motor_a_mode`. The `dev_err` line only writes the
kernel log. -/
def tb6612_store_motor_a_mode (w : World) (buf : List Char) (count : Nat) : Int × World :=
  if strncmp buf "stop".toList (strlen "stop".toList) = 0 then
    let w := gpiod_set_value w.data.motor_a.in1_gpio 0 w
    let w := gpiod_set_value w.data.motor_a.in2_gpio 0 w
    let motor_a := { w.data.motor_a with mode := MOTOR_MODE_STOP }
    ((count : Int), { w with data := { w.data with motor_a := motor_a } })
  else if strncmp buf "cw".toList (strlen "cw".toList) = 0 then
    let w := gpiod_set_value w.data.motor_a.in1_gpio 0 w
    let w := gpiod_set_value w.data.motor_a.in2_gpio 1 w
    let motor_a := { w.data.motor_a with mode := MOTOR_MODE_CW }
    ((count : Int), { w with data := { w.data with motor_a := motor_a } })
  else if strncmp buf "ccw".toList (strlen "ccw".toList) = 0 then
    let w := gpiod_set_value w.data.motor_a.in1_gpio 1 w
    let w := gpiod_set_value w.data.motor_a.in2_gpio 0 w
    let motor_a := { w.data.motor_a with mode := MOTOR_MODE_CCW }
    ((count : Int), { w with data := { w.data with motor_a := motor_a } })
  else (-EINVAL, w)

/-- Source: `tb6612_show_motor_b_mode`. -/
def tb6612_show_motor_b_mode (w : World) : Int × String :=
  if w.data.motor_b.mode = MOTOR_MODE_CW then sprintf "cw\n"
  else if w.data.motor_b.mode = MOTOR_MODE_CCW then sprintf "ccw\n"
  else if w.data.motor_b.mode = MOTOR_MODE_STOP then sprintf "stop\n"
  else (-EINVAL, "")

/-- Source: `tb6612_store_motor_b_mode`. -/
def tb6612_store_motor_b_mode (w : World) (buf : List Char) (count : Nat) : Int × World :=
  if strncmp buf "stop".toList (strlen "stop".toList) = 0 then
    let w := gpiod_set_value w.data.motor_b.in1_gpio 0 w
    let w := gpiod_set_value w.data.motor_b.in2_gpio 0 w
    let motor_b := { w.data.motor_b with mode := MOTOR_MODE_STOP }
    ((count : Int), { w with data := { w.data with motor_b := motor_b } })
  else if strncmp buf "cw".toList (strlen "cw".toList) = 0 then
    let w := gpiod_set_value w.data.motor_b.in1_gpio 0 w
    let w := gpiod_set_value w.data.motor_b.in2_gpio 1 w
    let motor_b := { w.data.motor_b with mode := MOTOR_MODE_CW }
    ((count : Int), { w with data := { w.data with motor_b := motor_b } })
  else if strncmp buf "ccw".toList (strlen "ccw".toList) = 0 then
    let w := gpiod_set_value w.data.motor_b.in1_gpio 1 w
    let w := gpiod_set_value w.data.motor_b.in2_gpio 0 w
    let motor_b := { w.data.motor_b with mode := MOTOR_MODE_CCW }
    ((count : Int), { w with data := { w.data with motor_b := motor_b } })
  else (-EINVAL, w)

/-- Source: `tb6612_show_suspend` (`"%i\n"` of an `unsigned char`). -/
def tb6612_show_suspend (w : World) : Int × String :=
  sprintf (toString w.data.standby ++ "\n")

/-- Source: `tb6612_store_suspend`. The result of `kstrtoul` is stored in
`error` and never read; `!tmp` is 1 for `tmp = 0` and 0 otherwise. -/
def tb6612_store_suspend (tmp0 : Nat) (w : World) (buf : List Char) (count : Nat) :
    Int × World :=
  match kstrtoul buf 10 tmp0 with
  | (_error, tmp) =>
    if tmp > 1 then (-EINVAL, w)
    else
      let w := gpiod_set_value w.data.standby_gpio (if tmp = 0 then 1 else 0) w
      ((count : Int), { w with data := { w.data with standby := tmp % 2 ^ 8 } })

/-! ## Probe and remove -/

/-- The zero-filled `struct motor_data` inside the `devm_kzalloc` allocation:
NULL handles, speed 0 and mode 0. -/
def motor_data.zeroed : motor_data :=
  { speed_pwm := .NULL, in1_gpio := .NULL, in2_gpio := .NULL, speed := 0, mode := 0 }

/-- The zero-filled `struct tb6612_data` that `devm_kzalloc` returns. -/
def tb6612_data.zeroed : tb6612_data :=
  { motor_a := motor_data.zeroed, motor_b := motor_data.zeroed, standby := 0,
    standby_gpio := .NULL }

/-- Source: `tb6612_probe`, on a board whose devices are in state `hw0`.
`error` is the C variable of that name: it starts at 0 and is reassigned by
every call whose result the source stores in it; the handle checks are on the
fields the source names. A failed `devm_pinctrl_get_select_default` only logs a
warning. -/
def tb6612_probe (env : Env) (hw0 : Hw) : Int × World :=
  let w : World :=
    { data := tb6612_data.zeroed, hw := hw0, log := [], drvdata := false, sysfs_group := false }
  let error : Int := 0
  if env.of_node = false then (-EINVAL, w)
  else if env.devm_kzalloc = false then (-ENOMEM, w)
  else
  let motor_a := { w.data.motor_a with speed_pwm := devm_pwm_get env .a }
  let w := { w with data := { w.data with motor_a := motor_a } }
  if w.data.motor_a.speed_pwm.IS_ERR then (error, w) else
  match pwm_config env w.data.motor_a.speed_pwm 0 MOTOR_PWM_PERIOD w with
  | (error, w) =>
  if error ≠ 0 then (error, w) else
  match pwm_set_polarity env w.data.motor_a.speed_pwm .PWM_POLARITY_NORMAL w with
  | (error, w) =>
  if error ≠ 0 then (error, w) else
  match pwm_enable env w.data.motor_a.speed_pwm w with
  | (error, w) =>
  if error ≠ 0 then (error, w) else
  let motor_b := { w.data.motor_b with speed_pwm := devm_pwm_get env .b }
  let w := { w with data := { w.data with motor_b := motor_b } }
  if w.data.motor_b.speed_pwm.IS_ERR then (error, w) else
  match pwm_config env w.data.motor_b.speed_pwm 0 MOTOR_PWM_PERIOD w with
  | (error, w) =>
  if error ≠ 0 then (error, w) else
  match pwm_set_polarity env w.data.motor_b.speed_pwm .PWM_POLARITY_NORMAL w with
  | (error, w) =>
  if error ≠ 0 then (error, w) else
  match pwm_enable env w.data.motor_b.speed_pwm w with
  | (error, w) =>
  if error ≠ 0 then (error, w) else
  match devm_gpiod_get env .ain1 w with
  | (d, w) =>
  let motor_a := { w.data.motor_a with in1_gpio := d }
  let w := { w with data := { w.data with motor_a := motor_a } }
  if w.data.motor_a.in1_gpio.IS_ERR then (error, w) else
  match devm_gpiod_get env .ain2 w with
  | (d, w) =>
  let motor_a := { w.data.motor_a with in2_gpio := d }
  let w := { w with data := { w.data with motor_a := motor_a } }
  if w.data.motor_a.in1_gpio.IS_ERR then (error, w) else
  match devm_gpiod_get env .bin1 w with
  | (d, w) =>
  let motor_b := { w.data.motor_b with in1_gpio := d }
  let w := { w with data := { w.data with motor_b := motor_b } }
  if w.data.motor_b.in1_gpio.IS_ERR then (error, w) else
  match devm_gpiod_get env .bin2 w with
  | (d, w) =>
  let motor_b := { w.data.motor_b with in2_gpio := d }
  let w := { w with data := { w.data with motor_b := motor_b } }
  if w.data.motor_b.in1_gpio.IS_ERR then (error, w) else
  match devm_gpiod_get env .stby w with
  | (d, w) =>
  let w := { w with data := { w.data with standby_gpio := d } }
  if w.data.motor_b.in1_gpio.IS_ERR then (error, w) else
  let w := { w with drvdata := true }
  let error := env.sysfs_create_group
  if error ≠ 0 then (error, w) else
  (0, { w with sysfs_group := true })

/-- Source: `tb6612_remove`. -/
def tb6612_remove (w : World) : Int × World :=
  let w := pwm_disable w.data.motor_a.speed_pwm w
  let w := pwm_disable w.data.motor_b.speed_pwm w
  let w := gpiod_set_value w.data.motor_a.in1_gpio 0 w
  let w := gpiod_set_value w.data.motor_a.in2_gpio 0 w
  let w := gpiod_set_value w.data.motor_b.in1_gpio 0 w
  let w := gpiod_set_value w.data.motor_b.in2_gpio 0 w
  let w := gpiod_set_value w.data.standby_gpio 0 w
  (0, { w with sysfs_group := false })

/-! ## The Ready state -/

/-- The chip is Ready, the state `tb6612_probe` establishes when every step
succeeds and that every attribute handler keeps: each handle in the driver data
is the valid handle of the device it is looked up for, the driver data is
attached to the platform device, the attribute group is published, and both PWM
outputs run at the fixed period. -/
def Ready (w : World) : Prop :=
  w.data.motor_a.speed_pwm = .dev .a ∧ w.data.motor_b.speed_pwm = .dev .b ∧
  w.data.motor_a.in1_gpio = .desc .ain1 ∧ w.data.motor_a.in2_gpio = .desc .ain2 ∧
  w.data.motor_b.in1_gpio = .desc .bin1 ∧ w.data.motor_b.in2_gpio = .desc .bin2 ∧
  w.data.standby_gpio = .desc .stby ∧ w.drvdata = true ∧ w.sysfs_group = true ∧
  w.hw.pwm_a.period = MOTOR_PWM_PERIOD ∧ w.hw.pwm_b.period = MOTOR_PWM_PERIOD

instance (w : World) : Decidable (Ready w) := by
  unfold Ready
  infer_instance

/-- A platform on which every step of `tb6612_probe` succeeds. -/
def Env.all_ok : Env :=
  { of_node := true, devm_kzalloc := true, devm_pinctrl_get_select_default := 0,
    devm_pwm_get := fun _ => 0, chip_config := fun _ _ _ _ => 0,
    chip_set_polarity := fun _ _ _ => 0, chip_enable := fun _ _ => 0,
    devm_gpiod_get := fun _ => 0, sysfs_create_group := 0 }

/-- A platform on which looking up the line `ain2` fails with `-ENOENT` and
every other step succeeds. -/
def Env.ain2_missing : Env :=
  { Env.all_ok with devm_gpiod_get := fun p => if p = .ain2 then -2 else 0 }

/-- A platform on which looking up the PWM output `motor_a` fails with
`-ENODEV` and every other step succeeds. -/
def Env.pwm_a_missing : Env :=
  { Env.all_ok with devm_pwm_get := fun m => if m = .a then -19 else 0 }

/-- A platform whose PWM chip answers every `config` request with `-EBUSY`. -/
def Env.pwm_busy : Env :=
  { Env.all_ok with chip_config := fun _ _ _ _ => -16 }

/-- A Ready chip in the middle of operation: motor A at 30% turning clockwise,
motor B at 75% turning counter-clockwise, the chip in standby. -/
def World.sample : World :=
  { data :=
      { motor_a := { speed_pwm := .dev .a, in1_gpio := .desc .ain1, in2_gpio := .desc .ain2,
                     speed := 30, mode := MOTOR_MODE_CW },
        motor_b := { speed_pwm := .dev .b, in1_gpio := .desc .bin1, in2_gpio := .desc .bin2,
                     speed := 75, mode := MOTOR_MODE_CCW },
        standby := 1, standby_gpio := .desc .stby },
    hw :=
      { pwm_a := { duty_cycle := 3000000, period := 10000000,
                   polarity := .PWM_POLARITY_NORMAL, enabled := true },
        pwm_b := { duty_cycle := 7500000, period := 10000000,
                   polarity := .PWM_POLARITY_NORMAL, enabled := true },
        ain1 := 0, ain2 := 1, bin1 := 1, bin2 := 0, stby := 0 },
    log := [], drvdata := true, sysfs_group := true }

/-! ## Properties -/

/-- Two different characters differ in their codes, so their difference is not 0. -/
theorem char_sub_ne_zero (a b : Char) (h : a ≠ b) : (a.toNat : Int) - (b.toNat : Int) ≠ 0 := by
  intro h0
  apply h
  have : a.toNat = b.toNat := by omega
  rw [← Char.ofNat_toNat a, ← Char.ofNat_toNat b, this]

/-- For a token without NUL characters, `strncmp` over the token's length is 0
exactly when the text begins with the token. -/
theorem strncmp_eq_zero_iff_begins (tok : List Char) (hn : ∀ c ∈ tok, c ≠ NUL) (buf : List Char) :
    strncmp buf tok tok.length = 0 ↔ tok <+: buf := by
  induction tok generalizing buf with
  | nil => simp [strncmp]
  | cons t ts ih =>
    have ht : t ≠ NUL := hn t (by simp)
    have hts : ∀ c ∈ ts, c ≠ NUL := fun c hc => hn c (by simp [hc])
    cases buf with
    | nil =>
      simp only [List.length_cons, strncmp, List.headD_nil, List.headD_cons]
      rw [if_pos (Ne.symm ht)]
      simp [char_sub_ne_zero _ _ (Ne.symm ht)]
    | cons b bs =>
      simp only [List.length_cons, strncmp, List.headD_cons, List.tail_cons]
      by_cases hbt : b = t
      · subst hbt
        simp [ht, ih hts bs, List.cons_prefix_cons]
      · rw [if_pos hbt]
        simp [char_sub_ne_zero _ _ hbt, List.cons_prefix_cons, Ne.symm hbt]


/-- The line `stop` with its newline has five characters. -/
theorem length_stop_line : (("stop\n".length : Nat) : Int) = 5 := by decide

/-- The line `cw` with its newline has three characters. -/
theorem length_cw_line : (("cw\n".length : Nat) : Int) = 3 := by decide

/-- The line `ccw` with its newline has four characters. -/
theorem length_ccw_line : (("ccw\n".length : Nat) : Int) = 4 := by decide

/-- The first test of `set_mode` holds exactly for texts beginning with `stop`. -/
theorem stop_token (buf : List Char) :
    strncmp buf "stop".toList (strlen "stop".toList) = 0 ↔ "stop".toList <+: buf := by
  have hl : strlen "stop".toList = "stop".toList.length := by decide
  rw [hl]
  exact strncmp_eq_zero_iff_begins _ (by decide) buf

/-- The second test of `set_mode` holds exactly for texts beginning with `cw`. -/
theorem cw_token (buf : List Char) :
    strncmp buf "cw".toList (strlen "cw".toList) = 0 ↔ "cw".toList <+: buf := by
  have hl : strlen "cw".toList = "cw".toList.length := by decide
  rw [hl]
  exact strncmp_eq_zero_iff_begins _ (by decide) buf

/-- The third test of `set_mode` holds exactly for texts beginning with `ccw`. -/
theorem ccw_token (buf : List Char) :
    strncmp buf "ccw".toList (strlen "ccw".toList) = 0 ↔ "ccw".toList <+: buf := by
  have hl : strlen "ccw".toList = "ccw".toList.length := by decide
  rw [hl]
  exact strncmp_eq_zero_iff_begins _ (by decide) buf

/-- A text beginning with `cw` does not begin with `stop`. -/
theorem cw_not_stop (buf : List Char) (h : "cw".toList <+: buf) : ¬ "stop".toList <+: buf := by
  rcases buf with _ | ⟨a, bs⟩
  · simp at h
  · intro h2
    simp [List.cons_prefix_cons] at h h2
    have e : 'c' = 's' := h.1.trans h2.1.symm
    exact absurd e (by decide)

/-- A text beginning with `ccw` does not begin with `stop`. -/
theorem ccw_not_stop (buf : List Char) (h : "ccw".toList <+: buf) : ¬ "stop".toList <+: buf := by
  rcases buf with _ | ⟨a, bs⟩
  · simp at h
  · intro h2
    simp [List.cons_prefix_cons] at h h2
    have e : 'c' = 's' := h.1.trans h2.1.symm
    exact absurd e (by decide)

/-- A text beginning with `ccw` does not begin with `cw`: the second characters differ. -/
theorem ccw_not_cw (buf : List Char) (h : "ccw".toList <+: buf) : ¬ "cw".toList <+: buf := by
  rcases buf with _ | ⟨a, _ | ⟨b, bs⟩⟩
  · simp at h
  · simp [List.cons_prefix_cons] at h
  · intro h2
    simp [List.cons_prefix_cons] at h h2
    have e : 'c' = 'w' := h.2.1.trans h2.2.symm
    exact absurd e (by decide)


/-- C3: on a Ready chip, a text that begins with `stop`, `cw` or `ccw` makes
`set_mode` of either channel succeed (it returns the byte count), write the
channel's direction pins in1 then in2 to (0,0), (0,1) or (1,0) respectively,
record the matching mode, and make a following `get_mode` read `stop`, `cw` or
`ccw`; a text beginning with `ccw` is never taken for `cw`. -/
theorem set_mode_maps_tokens (w : World) (buf : List Char) (count : Nat)
    (hr : Ready w) :
    ("stop".toList <+: buf →
      ∃ wa wb, tb6612_store_motor_a_mode w buf count = ((count : Int), wa) ∧
        tb6612_store_motor_b_mode w buf count = ((count : Int), wb) ∧
        wa.log = w.log ++ [.gpiod_set_value .ain1 0, .gpiod_set_value .ain2 0] ∧
        wa.hw.ain1 = 0 ∧ wa.hw.ain2 = 0 ∧ wa.data.motor_a.mode = MOTOR_MODE_STOP ∧
        tb6612_show_motor_a_mode wa = (5, "stop\n") ∧
        wb.log = w.log ++ [.gpiod_set_value .bin1 0, .gpiod_set_value .bin2 0] ∧
        wb.hw.bin1 = 0 ∧ wb.hw.bin2 = 0 ∧ wb.data.motor_b.mode = MOTOR_MODE_STOP ∧
        tb6612_show_motor_b_mode wb = (5, "stop\n")) ∧
    ("cw".toList <+: buf →
      ∃ wa wb, tb6612_store_motor_a_mode w buf count = ((count : Int), wa) ∧
        tb6612_store_motor_b_mode w buf count = ((count : Int), wb) ∧
        wa.log = w.log ++ [.gpiod_set_value .ain1 0, .gpiod_set_value .ain2 1] ∧
        wa.hw.ain1 = 0 ∧ wa.hw.ain2 = 1 ∧ wa.data.motor_a.mode = MOTOR_MODE_CW ∧
        tb6612_show_motor_a_mode wa = (3, "cw\n") ∧
        wb.log = w.log ++ [.gpiod_set_value .bin1 0, .gpiod_set_value .bin2 1] ∧
        wb.hw.bin1 = 0 ∧ wb.hw.bin2 = 1 ∧ wb.data.motor_b.mode = MOTOR_MODE_CW ∧
        tb6612_show_motor_b_mode wb = (3, "cw\n")) ∧
    ("ccw".toList <+: buf →
      ∃ wa wb, tb6612_store_motor_a_mode w buf count = ((count : Int), wa) ∧
        tb6612_store_motor_b_mode w buf count = ((count : Int), wb) ∧
        wa.log = w.log ++ [.gpiod_set_value .ain1 1, .gpiod_set_value .ain2 0] ∧
        wa.hw.ain1 = 1 ∧ wa.hw.ain2 = 0 ∧ wa.data.motor_a.mode = MOTOR_MODE_CCW ∧
        tb6612_show_motor_a_mode wa = (4, "ccw\n") ∧
        wb.log = w.log ++ [.gpiod_set_value .bin1 1, .gpiod_set_value .bin2 0] ∧
        wb.hw.bin1 = 1 ∧ wb.hw.bin2 = 0 ∧ wb.data.motor_b.mode = MOTOR_MODE_CCW ∧
        tb6612_show_motor_b_mode wb = (4, "ccw\n")) := by
  obtain ⟨-, -, ha1, ha2, hb1, hb2, -, -, -, -, -⟩ := hr
  refine ⟨fun h => ?_, fun h => ?_, fun h => ?_⟩
  · have t1 := (stop_token buf).mpr h
    refine ⟨(tb6612_store_motor_a_mode w buf count).2, (tb6612_store_motor_b_mode w buf count).2,
      by simp only [tb6612_store_motor_a_mode, t1, if_true],
      by simp only [tb6612_store_motor_b_mode, t1, if_true], ?_⟩
    simp only [tb6612_store_motor_a_mode, tb6612_store_motor_b_mode, t1, if_true]
    simp [gpiod_set_value, ha1, ha2, hb1, hb2, Hw.set_pin, tb6612_show_motor_a_mode,
      tb6612_show_motor_b_mode, sprintf, MOTOR_MODE_STOP, MOTOR_MODE_CW, MOTOR_MODE_CCW,
      length_stop_line, length_cw_line, length_ccw_line]
  · have t0 : ¬ strncmp buf "stop".toList (strlen "stop".toList) = 0 :=
      fun e => cw_not_stop buf h ((stop_token buf).mp e)
    have t1 := (cw_token buf).mpr h
    refine ⟨(tb6612_store_motor_a_mode w buf count).2, (tb6612_store_motor_b_mode w buf count).2,
      by simp only [tb6612_store_motor_a_mode, t0, t1, if_true, if_false],
      by simp only [tb6612_store_motor_b_mode, t0, t1, if_true, if_false], ?_⟩
    simp only [tb6612_store_motor_a_mode, tb6612_store_motor_b_mode, t0, t1, if_true, if_false]
    simp [gpiod_set_value, ha1, ha2, hb1, hb2, Hw.set_pin, tb6612_show_motor_a_mode,
      tb6612_show_motor_b_mode, sprintf, MOTOR_MODE_STOP, MOTOR_MODE_CW, MOTOR_MODE_CCW,
      length_stop_line, length_cw_line, length_ccw_line]
  · have t0 : ¬ strncmp buf "stop".toList (strlen "stop".toList) = 0 :=
      fun e => ccw_not_stop buf h ((stop_token buf).mp e)
    have t1 : ¬ strncmp buf "cw".toList (strlen "cw".toList) = 0 :=
      fun e => ccw_not_cw buf h ((cw_token buf).mp e)
    have t2 := (ccw_token buf).mpr h
    refine ⟨(tb6612_store_motor_a_mode w buf count).2, (tb6612_store_motor_b_mode w buf count).2,
      by simp only [tb6612_store_motor_a_mode, t0, t1, t2, if_true, if_false],
      by simp only [tb6612_store_motor_b_mode, t0, t1, t2, if_true, if_false], ?_⟩
    simp only [tb6612_store_motor_a_mode, tb6612_store_motor_b_mode, t0, t1, t2, if_true, if_false]
    simp [gpiod_set_value, ha1, ha2, hb1, hb2, Hw.set_pin, tb6612_show_motor_a_mode,
      tb6612_show_motor_b_mode, sprintf, MOTOR_MODE_STOP, MOTOR_MODE_CW, MOTOR_MODE_CCW,
      length_stop_line, length_cw_line, length_ccw_line]


/-- C4: a text that begins with none of `stop`, `cw`, `ccw` makes `set_mode` of
either channel return `-EINVAL` and leave the whole world as it was: no call on
any pin is logged and the recorded mode is unchanged. -/
theorem set_mode_rejects_unrecognised (w : World) (buf : List Char) (count : Nat)
    (h1 : ¬ "stop".toList <+: buf) (h2 : ¬ "cw".toList <+: buf)
    (h3 : ¬ "ccw".toList <+: buf) :
    tb6612_store_motor_a_mode w buf count = (-EINVAL, w) ∧
    tb6612_store_motor_b_mode w buf count = (-EINVAL, w) := by
  have t1 : ¬ strncmp buf "stop".toList (strlen "stop".toList) = 0 :=
    fun e => h1 ((stop_token buf).mp e)
  have t2 : ¬ strncmp buf "cw".toList (strlen "cw".toList) = 0 :=
    fun e => h2 ((cw_token buf).mp e)
  have t3 : ¬ strncmp buf "ccw".toList (strlen "ccw".toList) = 0 :=
    fun e => h3 ((ccw_token buf).mp e)
  constructor
  · simp only [tb6612_store_motor_a_mode, t1, t2, t3, if_false]
  · simp only [tb6612_store_motor_b_mode, t1, t2, t3, if_false]

/-- The rejection of unrecognised mode commands at `xyz`, `CW`, `sto` and the
empty text, on the sample chip. -/
theorem set_mode_rejects_unrecognised_witness :
    (¬ "stop".toList <+: "xyz".toList ∧ ¬ "cw".toList <+: "xyz".toList ∧
      ¬ "ccw".toList <+: "xyz".toList) ∧
    (tb6612_store_motor_a_mode World.sample "xyz".toList 3 = (-EINVAL, World.sample) ∧
      tb6612_store_motor_b_mode World.sample "xyz".toList 3 = (-EINVAL, World.sample)) ∧
    (tb6612_store_motor_a_mode World.sample "CW".toList 2 = (-EINVAL, World.sample) ∧
      tb6612_store_motor_b_mode World.sample "CW".toList 2 = (-EINVAL, World.sample)) ∧
    (tb6612_store_motor_a_mode World.sample "sto".toList 3 = (-EINVAL, World.sample) ∧
      tb6612_store_motor_b_mode World.sample "sto".toList 3 = (-EINVAL, World.sample)) ∧
    (tb6612_store_motor_a_mode World.sample "".toList 0 = (-EINVAL, World.sample) ∧
      tb6612_store_motor_b_mode World.sample "".toList 0 = (-EINVAL, World.sample)) :=
  ⟨by decide,
   set_mode_rejects_unrecognised World.sample "xyz".toList 3 (by decide) (by decide) (by decide),
   set_mode_rejects_unrecognised World.sample "CW".toList 2 (by decide) (by decide) (by decide),
   set_mode_rejects_unrecognised World.sample "sto".toList 3 (by decide) (by decide) (by decide),
   set_mode_rejects_unrecognised World.sample "".toList 0 (by decide) (by decide) (by decide)⟩

/-- C5: on a Ready chip, writing a text that parses to `v` with `v` 0 or 1 makes
`set_standby` succeed (it returns the byte count), write the standby pin once,
to the logical negation of `v` (1 for `v = 0`, 0 for `v = 1`), record `v`, and
make a following `get_standby` read `v` followed by a newline. -/
theorem set_standby_inverts_pin (tmp0 : Nat) (w : World) (buf : List Char) (count v : Nat)
    (hr : Ready w) (hparse : kstrtoul buf 10 tmp0 = (0, v)) (hv : v = 0 ∨ v = 1) :
    ∃ w', tb6612_store_suspend tmp0 w buf count = ((count : Int), w') ∧
      w'.log = w.log ++ [.gpiod_set_value .stby (if v = 0 then 1 else 0)] ∧
      w'.hw.stby = (if v = 0 then 1 else 0) ∧
      w'.data.standby = v ∧
      tb6612_show_suspend w' = (2, toString v ++ "\n") := by
  obtain ⟨-, -, -, -, -, -, hs, -, -, -, -⟩ := hr
  refine ⟨(tb6612_store_suspend tmp0 w buf count).2, ?_, ?_⟩
  · rcases hv with rfl | rfl <;> simp [tb6612_store_suspend, hparse]
  · rcases hv with rfl | rfl <;>
      simp [tb6612_store_suspend, hparse, gpiod_set_value, hs, Hw.set_pin,
        tb6612_show_suspend, sprintf] <;> decide


/-- C1: on a Ready chip, for either channel, writing a text that parses to `v`
with `v ≤ 100` while the PWM chip accepts the request makes `set_speed` call
`pwm_config` once with duty `v * 100000` over period `10000000`, which become
the duty and period of that output, return the byte count and record `v`, so
that a following `get_speed` reads `v` in decimal followed by a newline. The
duty never exceeds the period, and equals it exactly for `v = 100`. -/
theorem set_speed_round_trip (env : Env) (tmp0 : Nat) (w : World) (buf : List Char)
    (count v : Nat) (hr : Ready w) (hparse : kstrtoul buf 10 tmp0 = (0, v)) (hv : v ≤ 100) :
    (env.chip_config w.hw .a (v * MOTOR_PWM_DUTY_MUL) MOTOR_PWM_PERIOD = 0 →
      ∃ w', tb6612_store_motor_a_speed env tmp0 w buf count = ((count : Int), w') ∧
        w'.log = w.log ++ [.pwm_config .a (v * 100000) 10000000] ∧
        w'.hw.pwm_a.duty_cycle = v * 100000 ∧ w'.hw.pwm_a.period = 10000000 ∧
        w'.data.motor_a.speed = v ∧
        tb6612_show_motor_a_speed w' =
          (((toString v ++ "\n").length : Int), toString v ++ "\n")) ∧
    (env.chip_config w.hw .b (v * MOTOR_PWM_DUTY_MUL) MOTOR_PWM_PERIOD = 0 →
      ∃ w', tb6612_store_motor_b_speed env tmp0 w buf count = ((count : Int), w') ∧
        w'.log = w.log ++ [.pwm_config .b (v * 100000) 10000000] ∧
        w'.hw.pwm_b.duty_cycle = v * 100000 ∧ w'.hw.pwm_b.period = 10000000 ∧
        w'.data.motor_b.speed = v ∧
        tb6612_show_motor_b_speed w' =
          (((toString v ++ "\n").length : Int), toString v ++ "\n")) ∧
    v * MOTOR_PWM_DUTY_MUL ≤ MOTOR_PWM_PERIOD ∧
    (v * MOTOR_PWM_DUTY_MUL = MOTOR_PWM_PERIOD ↔ v = 100) := by
  obtain ⟨hpa, hpb, -, -, -, -, -, -, -, -, -⟩ := hr
  have hle : ¬ (v * 100000 > 10000000) := by omega
  have hmod : v % 4294967296 = v := Nat.mod_eq_of_lt (by omega)
  have h100 : ¬ (100 < v) := by omega
  refine ⟨fun hacc => ?_, fun hacc => ?_, ?_, ?_⟩
  · simp only [MOTOR_PWM_DUTY_MUL, MOTOR_PWM_PERIOD] at hacc
    refine ⟨(tb6612_store_motor_a_speed env tmp0 w buf count).2, ?_, ?_⟩ <;>
      simp [tb6612_store_motor_a_speed, hparse, pwm_config, hpa, hacc, hle, hmod, h100,
        Hw.set_pwm, Hw.pwm, tb6612_show_motor_a_speed, sprintf, MOTOR_PWM_DUTY_MUL,
        MOTOR_PWM_PERIOD]
  · simp only [MOTOR_PWM_DUTY_MUL, MOTOR_PWM_PERIOD] at hacc
    refine ⟨(tb6612_store_motor_b_speed env tmp0 w buf count).2, ?_, ?_⟩ <;>
      simp [tb6612_store_motor_b_speed, hparse, pwm_config, hpb, hacc, hle, hmod, h100,
        Hw.set_pwm, Hw.pwm, tb6612_show_motor_b_speed, sprintf, MOTOR_PWM_DUTY_MUL,
        MOTOR_PWM_PERIOD]
  · simp only [MOTOR_PWM_DUTY_MUL, MOTOR_PWM_PERIOD]; omega
  · simp only [MOTOR_PWM_DUTY_MUL, MOTOR_PWM_PERIOD]; omega


/-- C2: on a Ready chip, for either channel and a text that parses to `v`: if
`v > 100` then `set_speed` returns `-EINVAL` and leaves the whole world as it
was (no `pwm_config` call is made); if `v ≤ 100` and the PWM chip rejects the
request with a negative code then `set_speed` returns that code and the driver
data and the devices are as before. In both cases `get_speed` reads what it
read before the call. -/
theorem set_speed_all_or_nothing (env : Env) (tmp0 : Nat) (w : World) (buf : List Char)
    (count v : Nat) (hr : Ready w) (hparse : kstrtoul buf 10 tmp0 = (0, v)) :
    (v > 100 →
      tb6612_store_motor_a_speed env tmp0 w buf count = (-EINVAL, w) ∧
      tb6612_store_motor_b_speed env tmp0 w buf count = (-EINVAL, w)) ∧
    (v ≤ 100 → env.chip_config w.hw .a (v * MOTOR_PWM_DUTY_MUL) MOTOR_PWM_PERIOD < 0 →
      ∃ w', tb6612_store_motor_a_speed env tmp0 w buf count =
          (env.chip_config w.hw .a (v * MOTOR_PWM_DUTY_MUL) MOTOR_PWM_PERIOD, w') ∧
        w'.data = w.data ∧ w'.hw = w.hw ∧
        tb6612_show_motor_a_speed w' = tb6612_show_motor_a_speed w) ∧
    (v ≤ 100 → env.chip_config w.hw .b (v * MOTOR_PWM_DUTY_MUL) MOTOR_PWM_PERIOD < 0 →
      ∃ w', tb6612_store_motor_b_speed env tmp0 w buf count =
          (env.chip_config w.hw .b (v * MOTOR_PWM_DUTY_MUL) MOTOR_PWM_PERIOD, w') ∧
        w'.data = w.data ∧ w'.hw = w.hw ∧
        tb6612_show_motor_b_speed w' = tb6612_show_motor_b_speed w) := by
  obtain ⟨hpa, hpb, -, -, -, -, -, -, -, -, -⟩ := hr
  refine ⟨fun hv => ?_, fun hv hrej => ?_, fun hv hrej => ?_⟩
  · simp [tb6612_store_motor_a_speed, tb6612_store_motor_b_speed, hparse, hv]
  · have hle : ¬ (v * 100000 > 10000000) := by omega
    have h100 : ¬ (100 < v) := by omega
    simp only [MOTOR_PWM_DUTY_MUL, MOTOR_PWM_PERIOD] at hrej
    have hne : ¬ env.chip_config w.hw .a (v * 100000) 10000000 = 0 := by omega
    refine ⟨(tb6612_store_motor_a_speed env tmp0 w buf count).2, ?_, ?_⟩ <;>
      simp [tb6612_store_motor_a_speed, hparse, pwm_config, hpa, hle, h100, hne, hrej,
        tb6612_show_motor_a_speed, MOTOR_PWM_DUTY_MUL, MOTOR_PWM_PERIOD]
  · have hle : ¬ (v * 100000 > 10000000) := by omega
    have h100 : ¬ (100 < v) := by omega
    simp only [MOTOR_PWM_DUTY_MUL, MOTOR_PWM_PERIOD] at hrej
    have hne : ¬ env.chip_config w.hw .b (v * 100000) 10000000 = 0 := by omega
    refine ⟨(tb6612_store_motor_b_speed env tmp0 w buf count).2, ?_, ?_⟩ <;>
      simp [tb6612_store_motor_b_speed, hparse, pwm_config, hpb, hle, h100, hne, hrej,
        tb6612_show_motor_b_speed, MOTOR_PWM_DUTY_MUL, MOTOR_PWM_PERIOD]

/-- C9: on a Ready chip, whatever the speeds, modes and standby value,
`tb6612_remove` returns 0 after calling, in this order, `pwm_disable` on both
outputs and `gpiod_set_value` with 0 on the four direction pins and, without
negation, on the standby pin; afterwards both outputs are disabled and all five
lines are at 0. -/
theorem remove_stops_everything (w : World) (hr : Ready w) :
    ∃ w', tb6612_remove w = (0, w') ∧
      w'.log = w.log ++ [.pwm_disable .a, .pwm_disable .b, .gpiod_set_value .ain1 0,
        .gpiod_set_value .ain2 0, .gpiod_set_value .bin1 0, .gpiod_set_value .bin2 0,
        .gpiod_set_value .stby 0] ∧
      w'.hw.pwm_a.enabled = false ∧ w'.hw.pwm_b.enabled = false ∧
      w'.hw.ain1 = 0 ∧ w'.hw.ain2 = 0 ∧ w'.hw.bin1 = 0 ∧ w'.hw.bin2 = 0 ∧
      w'.hw.stby = 0 := by
  obtain ⟨hpa, hpb, ha1, ha2, hb1, hb2, hs, -, -, -, -⟩ := hr
  refine ⟨(tb6612_remove w).2, ?_, ?_⟩ <;>
    simp [tb6612_remove, pwm_disable, gpiod_set_value, hpa, hpb, ha1, ha2, hb1, hb2, hs,
      Hw.set_pwm, Hw.pwm, Hw.set_pin]


/-- C10: on a Ready chip, for every text written, whatever variable content
`kstrtoul` leaves and whether the call succeeds or fails: `set_speed` of a
channel leaves the world as it was except for that channel's recorded speed and
the duty of that channel's PWM output; `set_mode` of a channel leaves it as it
was except for that channel's recorded mode and its two direction pins;
`set_standby` leaves it as it was except for the recorded standby value and the
standby pin. -/
theorem handlers_touch_only_their_component (env : Env) (tmp0 : Nat) (w : World)
    (buf : List Char) (count : Nat) (hr : Ready w) :
    (∃ speed duty, ∀ w', w' = (tb6612_store_motor_a_speed env tmp0 w buf count).2 →
      w'.data = { w.data with motor_a := { w.data.motor_a with speed := speed } } ∧
      w'.hw = { w.hw with pwm_a := { w.hw.pwm_a with duty_cycle := duty } } ∧
      w'.drvdata = w.drvdata ∧ w'.sysfs_group = w.sysfs_group) ∧
    (∃ speed duty, ∀ w', w' = (tb6612_store_motor_b_speed env tmp0 w buf count).2 →
      w'.data = { w.data with motor_b := { w.data.motor_b with speed := speed } } ∧
      w'.hw = { w.hw with pwm_b := { w.hw.pwm_b with duty_cycle := duty } } ∧
      w'.drvdata = w.drvdata ∧ w'.sysfs_group = w.sysfs_group) ∧
    (∃ mode in1 in2, ∀ w', w' = (tb6612_store_motor_a_mode w buf count).2 →
      w'.data = { w.data with motor_a := { w.data.motor_a with mode := mode } } ∧
      w'.hw = { w.hw with ain1 := in1, ain2 := in2 } ∧
      w'.drvdata = w.drvdata ∧ w'.sysfs_group = w.sysfs_group) ∧
    (∃ mode in1 in2, ∀ w', w' = (tb6612_store_motor_b_mode w buf count).2 →
      w'.data = { w.data with motor_b := { w.data.motor_b with mode := mode } } ∧
      w'.hw = { w.hw with bin1 := in1, bin2 := in2 } ∧
      w'.drvdata = w.drvdata ∧ w'.sysfs_group = w.sysfs_group) ∧
    (∃ standby stby, ∀ w', w' = (tb6612_store_suspend tmp0 w buf count).2 →
      w'.data = { w.data with standby := standby } ∧
      w'.hw = { w.hw with stby := stby } ∧
      w'.drvdata = w.drvdata ∧ w'.sysfs_group = w.sysfs_group) := by
  refine ⟨⟨(tb6612_store_motor_a_speed env tmp0 w buf count).2.data.motor_a.speed,
      (tb6612_store_motor_a_speed env tmp0 w buf count).2.hw.pwm_a.duty_cycle, ?_⟩,
    ⟨(tb6612_store_motor_b_speed env tmp0 w buf count).2.data.motor_b.speed,
      (tb6612_store_motor_b_speed env tmp0 w buf count).2.hw.pwm_b.duty_cycle, ?_⟩,
    ⟨(tb6612_store_motor_a_mode w buf count).2.data.motor_a.mode,
      (tb6612_store_motor_a_mode w buf count).2.hw.ain1,
      (tb6612_store_motor_a_mode w buf count).2.hw.ain2, ?_⟩,
    ⟨(tb6612_store_motor_b_mode w buf count).2.data.motor_b.mode,
      (tb6612_store_motor_b_mode w buf count).2.hw.bin1,
      (tb6612_store_motor_b_mode w buf count).2.hw.bin2, ?_⟩,
    ⟨(tb6612_store_suspend tmp0 w buf count).2.data.standby,
      (tb6612_store_suspend tmp0 w buf count).2.hw.stby, ?_⟩⟩
  all_goals
    rintro w' rfl
    rcases w with ⟨⟨⟨pa, a1, a2, sa, ma⟩, ⟨pb, b1, b2, sb, mb⟩, st, sg⟩,
      ⟨⟨da, pera, pola, ena⟩, ⟨db, perb, polb, enb⟩, p1, p2, p3, p4, p5⟩, log, dd, sy⟩
    simp only [Ready] at hr
    obtain ⟨rfl, rfl, rfl, rfl, rfl, rfl, rfl, -, -, rfl, rfl⟩ := hr
    rcases hk : kstrtoul buf 10 tmp0 with ⟨e, tmp⟩
  · simp only [tb6612_store_motor_a_speed, hk, pwm_config]
    split_ifs <;> simp [Hw.set_pwm, Hw.pwm]
  · simp only [tb6612_store_motor_b_speed, hk, pwm_config]
    split_ifs <;> simp [Hw.set_pwm, Hw.pwm]
  · simp only [tb6612_store_motor_a_mode]
    split_ifs <;> simp [gpiod_set_value, Hw.set_pin]
  · simp only [tb6612_store_motor_b_mode]
    split_ifs <;> simp [gpiod_set_value, Hw.set_pin]
  · simp only [tb6612_store_suspend, hk]
    split_ifs <;> simp [gpiod_set_value, Hw.set_pin]


/-- The speed round trip at the text `50` with a newline, on the sample chip. -/
theorem set_speed_round_trip_witness :
    Ready World.sample ∧ kstrtoul "50\n".toList 10 0 = (0, 50) ∧ 50 ≤ 100 ∧
    Env.all_ok.chip_config World.sample.hw .a (50 * MOTOR_PWM_DUTY_MUL) MOTOR_PWM_PERIOD = 0 ∧
    ∃ w', tb6612_store_motor_a_speed Env.all_ok 0 World.sample "50\n".toList 3 =
        (((3 : Nat) : Int), w') ∧
      w'.log = World.sample.log ++ [.pwm_config .a (50 * 100000) 10000000] ∧
      w'.hw.pwm_a.duty_cycle = 50 * 100000 ∧ w'.hw.pwm_a.period = 10000000 ∧
      w'.data.motor_a.speed = 50 ∧
      tb6612_show_motor_a_speed w' =
        (((toString 50 ++ "\n").length : Int), toString 50 ++ "\n") :=
  ⟨by decide, by decide, by decide, rfl,
   (set_speed_round_trip Env.all_ok 0 World.sample "50\n".toList 3 50
      (by decide) (by decide) (by decide)).1 rfl⟩

/-- The all-or-nothing behaviour of `set_speed` at the text `101`, and at the
text `40` on a platform whose PWM chip is busy. -/
theorem set_speed_all_or_nothing_witness :
    Ready World.sample ∧ kstrtoul "101".toList 10 0 = (0, 101) ∧ 101 > 100 ∧
    (tb6612_store_motor_a_speed Env.all_ok 0 World.sample "101".toList 3 =
        (-EINVAL, World.sample) ∧
      tb6612_store_motor_b_speed Env.all_ok 0 World.sample "101".toList 3 =
        (-EINVAL, World.sample)) ∧
    kstrtoul "40".toList 10 0 = (0, 40) ∧ 40 ≤ 100 ∧
    Env.pwm_busy.chip_config World.sample.hw .a (40 * MOTOR_PWM_DUTY_MUL) MOTOR_PWM_PERIOD < 0 ∧
    ∃ w', tb6612_store_motor_a_speed Env.pwm_busy 0 World.sample "40".toList 2 =
        (Env.pwm_busy.chip_config World.sample.hw .a (40 * MOTOR_PWM_DUTY_MUL)
          MOTOR_PWM_PERIOD, w') ∧
      w'.data = World.sample.data ∧ w'.hw = World.sample.hw ∧
      tb6612_show_motor_a_speed w' = tb6612_show_motor_a_speed World.sample :=
  ⟨by decide, by decide, by decide,
   (set_speed_all_or_nothing Env.all_ok 0 World.sample "101".toList 3 101
      (by decide) (by decide)).1 (by decide),
   by decide, by decide, by decide,
   (set_speed_all_or_nothing Env.pwm_busy 0 World.sample "40".toList 2 40
      (by decide) (by decide)).2.1 (by decide) (by decide)⟩

/-- The token mapping at the texts `ccwfoo` and `cwfoo`, on the sample chip. -/
theorem set_mode_maps_tokens_witness :
    Ready World.sample ∧ "ccw".toList <+: "ccwfoo".toList ∧
    (∃ wa wb, tb6612_store_motor_a_mode World.sample "ccwfoo".toList 6 = (((6 : Nat) : Int), wa) ∧
      tb6612_store_motor_b_mode World.sample "ccwfoo".toList 6 = (((6 : Nat) : Int), wb) ∧
      wa.log = World.sample.log ++ [.gpiod_set_value .ain1 1, .gpiod_set_value .ain2 0] ∧
      wa.hw.ain1 = 1 ∧ wa.hw.ain2 = 0 ∧ wa.data.motor_a.mode = MOTOR_MODE_CCW ∧
      tb6612_show_motor_a_mode wa = (4, "ccw\n") ∧
      wb.log = World.sample.log ++ [.gpiod_set_value .bin1 1, .gpiod_set_value .bin2 0] ∧
      wb.hw.bin1 = 1 ∧ wb.hw.bin2 = 0 ∧ wb.data.motor_b.mode = MOTOR_MODE_CCW ∧
      tb6612_show_motor_b_mode wb = (4, "ccw\n")) ∧
    "cw".toList <+: "cwfoo".toList ∧
    (∃ wa wb, tb6612_store_motor_a_mode World.sample "cwfoo".toList 5 = (((5 : Nat) : Int), wa) ∧
      tb6612_store_motor_b_mode World.sample "cwfoo".toList 5 = (((5 : Nat) : Int), wb) ∧
      wa.log = World.sample.log ++ [.gpiod_set_value .ain1 0, .gpiod_set_value .ain2 1] ∧
      wa.hw.ain1 = 0 ∧ wa.hw.ain2 = 1 ∧ wa.data.motor_a.mode = MOTOR_MODE_CW ∧
      tb6612_show_motor_a_mode wa = (3, "cw\n") ∧
      wb.log = World.sample.log ++ [.gpiod_set_value .bin1 0, .gpiod_set_value .bin2 1] ∧
      wb.hw.bin1 = 0 ∧ wb.hw.bin2 = 1 ∧ wb.data.motor_b.mode = MOTOR_MODE_CW ∧
      tb6612_show_motor_b_mode wb = (3, "cw\n")) :=
  ⟨by decide, by decide,
   (set_mode_maps_tokens World.sample "ccwfoo".toList 6 (by decide)).2.2 (by decide),
   by decide,
   (set_mode_maps_tokens World.sample "cwfoo".toList 5 (by decide)).2.1 (by decide)⟩

/-- The inverted standby pin at the text `0` with a newline, on the sample chip. -/
theorem set_standby_inverts_pin_witness :
    Ready World.sample ∧ kstrtoul "0\n".toList 10 7 = (0, 0) ∧ (0 = 0 ∨ 0 = 1) ∧
    ∃ w', tb6612_store_suspend 7 World.sample "0\n".toList 2 = (((2 : Nat) : Int), w') ∧
      w'.log = World.sample.log ++ [.gpiod_set_value .stby (if 0 = 0 then 1 else 0)] ∧
      w'.hw.stby = (if 0 = 0 then 1 else 0) ∧
      w'.data.standby = 0 ∧
      tb6612_show_suspend w' = (2, toString 0 ++ "\n") :=
  ⟨by decide, by decide, by decide,
   set_standby_inverts_pin 7 World.sample "0\n".toList 2 0 (by decide) (by decide) (by decide)⟩

/-- The teardown of the sample chip. -/
theorem remove_stops_everything_witness :
    Ready World.sample ∧
    ∃ w', tb6612_remove World.sample = (0, w') ∧
      w'.log = World.sample.log ++ [.pwm_disable .a, .pwm_disable .b, .gpiod_set_value .ain1 0,
        .gpiod_set_value .ain2 0, .gpiod_set_value .bin1 0, .gpiod_set_value .bin2 0,
        .gpiod_set_value .stby 0] ∧
      w'.hw.pwm_a.enabled = false ∧ w'.hw.pwm_b.enabled = false ∧
      w'.hw.ain1 = 0 ∧ w'.hw.ain2 = 0 ∧ w'.hw.bin1 = 0 ∧ w'.hw.bin2 = 0 ∧
      w'.hw.stby = 0 :=
  ⟨by decide, remove_stops_everything World.sample (by decide)⟩

/-- The frame of `set_speed` of channel A and of `set_standby` at the text `60`,
on the sample chip. -/
theorem handlers_touch_only_their_component_witness :
    Ready World.sample ∧
    (∃ speed duty, ∀ w',
      w' = (tb6612_store_motor_a_speed Env.all_ok 0 World.sample "60".toList 2).2 →
      w'.data = { World.sample.data with
        motor_a := { World.sample.data.motor_a with speed := speed } } ∧
      w'.hw = { World.sample.hw with
        pwm_a := { World.sample.hw.pwm_a with duty_cycle := duty } } ∧
      w'.drvdata = World.sample.drvdata ∧ w'.sysfs_group = World.sample.sysfs_group) ∧
    (∃ standby stby, ∀ w', w' = (tb6612_store_suspend 0 World.sample "60".toList 2).2 →
      w'.data = { World.sample.data with standby := standby } ∧
      w'.hw = { World.sample.hw with stby := stby } ∧
      w'.drvdata = World.sample.drvdata ∧ w'.sysfs_group = World.sample.sysfs_group) :=
  ⟨by decide,
   (handlers_touch_only_their_component Env.all_ok 0 World.sample "60".toList 2
      (by decide)).1,
   (handlers_touch_only_their_component Env.all_ok 0 World.sample "60".toList 2
      (by decide)).2.2.2.2⟩

/-- The part of the standby input check that the code performs: a text that parses to a number above 1 makes
`set_standby` return `-EINVAL` and leave the whole world as it was. -/
theorem set_standby_rejects_parsed_above_one (tmp0 : Nat) (w : World) (buf : List Char)
    (count v : Nat) (hparse : kstrtoul buf 10 tmp0 = (0, v)) (hv : v > 1) :
    tb6612_store_suspend tmp0 w buf count = (-EINVAL, w) := by
  simp [tb6612_store_suspend, hparse, hv]

/-- C6 (where the code departs): the texts `abc`, `-1` and the empty text are
refused by `kstrtoul`, which leaves `tmp` as it was; `tb6612_store_suspend`
never reads the return code, so when `tmp` happened to hold 0 the call on a chip
in standby (recorded standby 1, pin 0) returns the byte count, drives the
standby pin to 1 and records standby 0. -/
theorem set_standby_accepts_unparsed_text :
    World.sample.data.standby = 1 ∧ World.sample.hw.stby = 0 ∧
    kstrtoul "abc".toList 10 0 = (-EINVAL, 0) ∧
    kstrtoul "-1".toList 10 0 = (-EINVAL, 0) ∧
    kstrtoul "".toList 10 0 = (-EINVAL, 0) ∧
    (tb6612_store_suspend 0 World.sample "abc".toList 3).1 = 3 ∧
    (tb6612_store_suspend 0 World.sample "abc".toList 3).2.log = [.gpiod_set_value .stby 1] ∧
    (tb6612_store_suspend 0 World.sample "abc".toList 3).2.hw.stby = 1 ∧
    (tb6612_store_suspend 0 World.sample "abc".toList 3).2.data.standby = 0 ∧
    tb6612_show_suspend (tb6612_store_suspend 0 World.sample "abc".toList 3).2 = (2, "0\n") ∧
    (tb6612_store_suspend 0 World.sample "-1".toList 2).1 = 2 ∧
    (tb6612_store_suspend 0 World.sample "-1".toList 2).2.data.standby = 0 ∧
    (tb6612_store_suspend 0 World.sample "".toList 0).1 = 0 ∧
    (tb6612_store_suspend 0 World.sample "".toList 0).2.hw.stby = 1 := by
  decide

/-- C7 (where the code departs): when every step of `tb6612_probe` succeeds it
returns 0 with the chip Ready, the four direction pins low and both recorded
speeds 0, but the recorded mode of both channels is the zero the allocation was
filled with, which is `MOTOR_MODE_CW`: `get_mode` reads `cw`, not `stop`. -/
theorem probe_initial_mode_reads_cw (hw0 : Hw) :
    ∃ w, tb6612_probe Env.all_ok hw0 = (0, w) ∧ Ready w ∧
      w.hw.ain1 = 0 ∧ w.hw.ain2 = 0 ∧ w.hw.bin1 = 0 ∧ w.hw.bin2 = 0 ∧
      tb6612_show_motor_a_speed w = (2, "0\n") ∧
      tb6612_show_motor_b_speed w = (2, "0\n") ∧
      w.data.motor_a.mode = MOTOR_MODE_CW ∧ w.data.motor_b.mode = MOTOR_MODE_CW ∧
      tb6612_show_motor_a_mode w = (3, "cw\n") ∧
      tb6612_show_motor_b_mode w = (3, "cw\n") := by
  refine ⟨(tb6612_probe Env.all_ok hw0).2, ?_, ?_⟩
  · simp [tb6612_probe, Env.all_ok, devm_pwm_get, pwm_config, pwm_set_polarity, pwm_enable,
      devm_gpiod_get, pwm_handle.IS_ERR, gpio_desc.IS_ERR, MOTOR_PWM_PERIOD]
  · simp [tb6612_probe, Env.all_ok, devm_pwm_get, pwm_config, pwm_set_polarity, pwm_enable,
      devm_gpiod_get, pwm_handle.IS_ERR, gpio_desc.IS_ERR, MOTOR_PWM_PERIOD, Ready,
      tb6612_data.zeroed, motor_data.zeroed, Hw.set_pwm, Hw.pwm, Hw.set_pin,
      tb6612_show_motor_a_speed, tb6612_show_motor_b_speed, tb6612_show_motor_a_mode,
      tb6612_show_motor_b_mode, sprintf, MOTOR_MODE_CW, length_cw_line]
    decide

/-- C8 (where the code departs): when looking up the line `ain2` fails, the check
that follows tests `in1_gpio` again, so `tb6612_probe` carries on, publishes the
attribute group and returns 0 with an `ERR_PTR` stored in `in2_gpio`; when
looking up the PWM output `motor_a` fails, `tb6612_probe` stops without
publishing but returns the `error` variable, which still holds 0. -/
theorem probe_misses_acquisition_failures (hw0 : Hw) :
    (tb6612_probe Env.ain2_missing hw0).1 = 0 ∧
    (tb6612_probe Env.ain2_missing hw0).2.sysfs_group = true ∧
    (tb6612_probe Env.ain2_missing hw0).2.data.motor_a.in2_gpio = .ERR_PTR (-2) ∧
    ¬ Ready (tb6612_probe Env.ain2_missing hw0).2 ∧
    (tb6612_probe Env.pwm_a_missing hw0).1 = 0 ∧
    (tb6612_probe Env.pwm_a_missing hw0).2.sysfs_group = false ∧
    (tb6612_probe Env.pwm_a_missing hw0).2.data.motor_a.speed_pwm = .ERR_PTR (-19) ∧
    (tb6612_probe Env.pwm_a_missing hw0).2.log = [] := by
  simp [tb6612_probe, Env.ain2_missing, Env.pwm_a_missing, Env.all_ok, devm_pwm_get,
    pwm_config, pwm_set_polarity, pwm_enable, devm_gpiod_get, pwm_handle.IS_ERR,
    gpio_desc.IS_ERR, MOTOR_PWM_PERIOD, Ready, tb6612_data.zeroed, motor_data.zeroed]


/-- Ready is an invariant of the attribute handlers: whatever is written, and
whether the call succeeds or fails, a Ready chip stays Ready. -/
theorem handlers_keep_ready (env : Env) (tmp0 : Nat) (w : World) (buf : List Char)
    (count : Nat) (hr : Ready w) :
    Ready (tb6612_store_motor_a_speed env tmp0 w buf count).2 ∧
    Ready (tb6612_store_motor_b_speed env tmp0 w buf count).2 ∧
    Ready (tb6612_store_motor_a_mode w buf count).2 ∧
    Ready (tb6612_store_motor_b_mode w buf count).2 ∧
    Ready (tb6612_store_suspend tmp0 w buf count).2 := by
  rcases w with ⟨⟨⟨pa, a1, a2, sa, ma⟩, ⟨pb, b1, b2, sb, mb⟩, st, sg⟩,
    ⟨⟨da, pera, pola, ena⟩, ⟨db, perb, polb, enb⟩, p1, p2, p3, p4, p5⟩, log, dd, sy⟩
  simp only [Ready] at hr
  obtain ⟨rfl, rfl, rfl, rfl, rfl, rfl, rfl, rfl, rfl, rfl, rfl⟩ := hr
  rcases hk : kstrtoul buf 10 tmp0 with ⟨e, tmp⟩
  refine ⟨?_, ?_, ?_, ?_, ?_⟩
  · simp only [tb6612_store_motor_a_speed, hk, pwm_config]
    split_ifs <;> simp [Ready, Hw.set_pwm, Hw.pwm]
  · simp only [tb6612_store_motor_b_speed, hk, pwm_config]
    split_ifs <;> simp [Ready, Hw.set_pwm, Hw.pwm]
  · simp only [tb6612_store_motor_a_mode]
    split_ifs <;> simp [Ready, gpiod_set_value, Hw.set_pin]
  · simp only [tb6612_store_motor_b_mode]
    split_ifs <;> simp [Ready, gpiod_set_value, Hw.set_pin]
  · simp only [tb6612_store_suspend, hk]
    split_ifs <;> simp [Ready, gpiod_set_value, Hw.set_pin]

/-- On every platform on which each step of `tb6612_probe` succeeds, it returns
0 with the chip Ready, both PWM outputs enabled at duty 0 with normal polarity,
all five lines low, and the driver data still zero apart from its handles. -/
theorem probe_all_steps_succeed (env : Env) (hw0 : Hw)
    (h1 : env.of_node = true) (h2 : env.devm_kzalloc = true)
    (h3 : ∀ m, env.devm_pwm_get m = 0)
    (h4 : ∀ hw m, env.chip_config hw m 0 MOTOR_PWM_PERIOD = 0)
    (h5 : ∀ hw m, env.chip_set_polarity hw m .PWM_POLARITY_NORMAL = 0)
    (h6 : ∀ hw m, env.chip_enable hw m = 0)
    (h7 : ∀ p, env.devm_gpiod_get p = 0) (h8 : env.sysfs_create_group = 0) :
    ∃ w, tb6612_probe env hw0 = (0, w) ∧ Ready w ∧
      w.hw = { pwm_a := { duty_cycle := 0, period := MOTOR_PWM_PERIOD,
                          polarity := .PWM_POLARITY_NORMAL, enabled := true },
               pwm_b := { duty_cycle := 0, period := MOTOR_PWM_PERIOD,
                          polarity := .PWM_POLARITY_NORMAL, enabled := true },
               ain1 := 0, ain2 := 0, bin1 := 0, bin2 := 0, stby := 0 } ∧
      w.data.motor_a.speed = 0 ∧ w.data.motor_b.speed = 0 ∧
      w.data.motor_a.mode = 0 ∧ w.data.motor_b.mode = 0 ∧ w.data.standby = 0 := by
  have h4' : ∀ hw m, env.chip_config hw m 0 10000000 = 0 := h4
  refine ⟨(tb6612_probe env hw0).2, ?_, ?_⟩
  · simp [tb6612_probe, h1, h2, h3, h4', h5, h6, h7, h8, devm_pwm_get, pwm_config,
      pwm_set_polarity, pwm_enable, devm_gpiod_get, pwm_handle.IS_ERR, gpio_desc.IS_ERR,
      MOTOR_PWM_PERIOD]
  · simp [tb6612_probe, h1, h2, h3, h4', h5, h6, h7, h8, devm_pwm_get, pwm_config,
      pwm_set_polarity, pwm_enable, devm_gpiod_get, pwm_handle.IS_ERR, gpio_desc.IS_ERR,
      MOTOR_PWM_PERIOD, Ready, tb6612_data.zeroed, motor_data.zeroed, Hw.set_pwm, Hw.pwm,
      Hw.set_pin]

/-- Where the abort path of `tb6612_probe` is written as intended: when the
PWM chip rejects the first `pwm_config`, the probe stops there, returns the
chip's code and publishes nothing. -/
theorem probe_surfaces_pwm_config_failure (env : Env) (hw0 : Hw) (e : Int)
    (h1 : env.of_node = true) (h2 : env.devm_kzalloc = true)
    (h3 : env.devm_pwm_get .a = 0)
    (h4 : env.chip_config hw0 .a 0 MOTOR_PWM_PERIOD = e) (he : e ≠ 0) :
    ∃ w, tb6612_probe env hw0 = (e, w) ∧ w.sysfs_group = false ∧
      w.log = [.pwm_config .a 0 MOTOR_PWM_PERIOD] ∧ w.hw = hw0 := by
  have h4' : env.chip_config hw0 .a 0 10000000 = e := h4
  refine ⟨(tb6612_probe env hw0).2, ?_, ?_⟩ <;>
    simp [tb6612_probe, h1, h2, h3, h4', he, devm_pwm_get, pwm_config, pwm_handle.IS_ERR,
      MOTOR_PWM_PERIOD, tb6612_data.zeroed, motor_data.zeroed]

/-- The attribute group is published only on the path of `tb6612_probe` that
returns 0: a non-zero return leaves it unpublished, on every platform. -/
theorem probe_error_never_publishes (env : Env) (hw0 : Hw) :
    (tb6612_probe env hw0).1 ≠ 0 → (tb6612_probe env hw0).2.sysfs_group = false := by
  rcases hw0 with ⟨⟨da, pa, pola, ena⟩, ⟨db, pb, polb, enb⟩, p1, p2, p3, p4, p5⟩
  by_cases h1 : env.of_node = true
  swap
  · simp [h1, tb6612_probe, devm_pwm_get, pwm_config, pwm_set_polarity, pwm_enable, devm_gpiod_get, pwm_handle.IS_ERR, gpio_desc.IS_ERR, MOTOR_PWM_PERIOD, tb6612_data.zeroed, motor_data.zeroed, Hw.set_pwm, Hw.pwm, Hw.set_pin]
  by_cases h2 : env.devm_kzalloc = true
  swap
  · simp [h1, h2, tb6612_probe, devm_pwm_get, pwm_config, pwm_set_polarity, pwm_enable, devm_gpiod_get, pwm_handle.IS_ERR, gpio_desc.IS_ERR, MOTOR_PWM_PERIOD, tb6612_data.zeroed, motor_data.zeroed, Hw.set_pwm, Hw.pwm, Hw.set_pin]
  by_cases h3 : env.devm_pwm_get .a = 0
  swap
  · simp [h1, h2, h3, tb6612_probe, devm_pwm_get, pwm_config, pwm_set_polarity, pwm_enable, devm_gpiod_get, pwm_handle.IS_ERR, gpio_desc.IS_ERR, MOTOR_PWM_PERIOD, tb6612_data.zeroed, motor_data.zeroed, Hw.set_pwm, Hw.pwm, Hw.set_pin]
  by_cases h4 : env.chip_config ⟨⟨da, pa, pola, ena⟩, ⟨db, pb, polb, enb⟩, p1, p2, p3, p4, p5⟩ .a 0 10000000 = 0
  swap
  · simp [h1, h2, h3, h4, tb6612_probe, devm_pwm_get, pwm_config, pwm_set_polarity, pwm_enable, devm_gpiod_get, pwm_handle.IS_ERR, gpio_desc.IS_ERR, MOTOR_PWM_PERIOD, tb6612_data.zeroed, motor_data.zeroed, Hw.set_pwm, Hw.pwm, Hw.set_pin]
  by_cases h5 : env.chip_set_polarity ⟨⟨0, 10000000, pola, ena⟩, ⟨db, pb, polb, enb⟩, p1, p2, p3, p4, p5⟩ .a .PWM_POLARITY_NORMAL = 0
  swap
  · simp [h1, h2, h3, h4, h5, tb6612_probe, devm_pwm_get, pwm_config, pwm_set_polarity, pwm_enable, devm_gpiod_get, pwm_handle.IS_ERR, gpio_desc.IS_ERR, MOTOR_PWM_PERIOD, tb6612_data.zeroed, motor_data.zeroed, Hw.set_pwm, Hw.pwm, Hw.set_pin]
  by_cases h6 : env.chip_enable ⟨⟨0, 10000000, .PWM_POLARITY_NORMAL, ena⟩, ⟨db, pb, polb, enb⟩, p1, p2, p3, p4, p5⟩ .a = 0
  swap
  · simp [h1, h2, h3, h4, h5, h6, tb6612_probe, devm_pwm_get, pwm_config, pwm_set_polarity, pwm_enable, devm_gpiod_get, pwm_handle.IS_ERR, gpio_desc.IS_ERR, MOTOR_PWM_PERIOD, tb6612_data.zeroed, motor_data.zeroed, Hw.set_pwm, Hw.pwm, Hw.set_pin]
  by_cases h7 : env.devm_pwm_get .b = 0
  swap
  · simp [h1, h2, h3, h4, h5, h6, h7, tb6612_probe, devm_pwm_get, pwm_config, pwm_set_polarity, pwm_enable, devm_gpiod_get, pwm_handle.IS_ERR, gpio_desc.IS_ERR, MOTOR_PWM_PERIOD, tb6612_data.zeroed, motor_data.zeroed, Hw.set_pwm, Hw.pwm, Hw.set_pin]
  by_cases h8 : env.chip_config ⟨⟨0, 10000000, .PWM_POLARITY_NORMAL, true⟩, ⟨db, pb, polb, enb⟩, p1, p2, p3, p4, p5⟩ .b 0 10000000 = 0
  swap
  · simp [h1, h2, h3, h4, h5, h6, h7, h8, tb6612_probe, devm_pwm_get, pwm_config, pwm_set_polarity, pwm_enable, devm_gpiod_get, pwm_handle.IS_ERR, gpio_desc.IS_ERR, MOTOR_PWM_PERIOD, tb6612_data.zeroed, motor_data.zeroed, Hw.set_pwm, Hw.pwm, Hw.set_pin]
  by_cases h9 : env.chip_set_polarity ⟨⟨0, 10000000, .PWM_POLARITY_NORMAL, true⟩, ⟨0, 10000000, polb, enb⟩, p1, p2, p3, p4, p5⟩ .b .PWM_POLARITY_NORMAL = 0
  swap
  · simp [h1, h2, h3, h4, h5, h6, h7, h8, h9, tb6612_probe, devm_pwm_get, pwm_config, pwm_set_polarity, pwm_enable, devm_gpiod_get, pwm_handle.IS_ERR, gpio_desc.IS_ERR, MOTOR_PWM_PERIOD, tb6612_data.zeroed, motor_data.zeroed, Hw.set_pwm, Hw.pwm, Hw.set_pin]
  by_cases h10 : env.chip_enable ⟨⟨0, 10000000, .PWM_POLARITY_NORMAL, true⟩, ⟨0, 10000000, .PWM_POLARITY_NORMAL, enb⟩, p1, p2, p3, p4, p5⟩ .b = 0
  swap
  · simp [h1, h2, h3, h4, h5, h6, h7, h8, h9, h10, tb6612_probe, devm_pwm_get, pwm_config, pwm_set_polarity, pwm_enable, devm_gpiod_get, pwm_handle.IS_ERR, gpio_desc.IS_ERR, MOTOR_PWM_PERIOD, tb6612_data.zeroed, motor_data.zeroed, Hw.set_pwm, Hw.pwm, Hw.set_pin]
  by_cases h11 : env.devm_gpiod_get .ain1 = 0
  swap
  · simp [h1, h2, h3, h4, h5, h6, h7, h8, h9, h10, h11, tb6612_probe, devm_pwm_get, pwm_config, pwm_set_polarity, pwm_enable, devm_gpiod_get, pwm_handle.IS_ERR, gpio_desc.IS_ERR, MOTOR_PWM_PERIOD, tb6612_data.zeroed, motor_data.zeroed, Hw.set_pwm, Hw.pwm, Hw.set_pin]
  all_goals by_cases h12 : env.devm_gpiod_get .ain2 = 0
  all_goals by_cases h13 : env.devm_gpiod_get .bin1 = 0
  all_goals by_cases h14 : env.devm_gpiod_get .bin2 = 0
  all_goals by_cases h15 : env.devm_gpiod_get .stby = 0
  all_goals by_cases h16 : env.sysfs_create_group = 0
  all_goals simp [h1, h2, h3, h4, h5, h6, h7, h8, h9, h10, h11, h12, h13, h14, h15, h16, tb6612_probe, devm_pwm_get, pwm_config, pwm_set_polarity, pwm_enable, devm_gpiod_get, pwm_handle.IS_ERR, gpio_desc.IS_ERR, MOTOR_PWM_PERIOD, tb6612_data.zeroed, motor_data.zeroed, Hw.set_pwm, Hw.pwm, Hw.set_pin]

/-- Where the checks of `tb6612_probe` test the right thing: on every platform,
if the attribute group ends up published then both PWM outputs were acquired,
configured with duty 0 over the fixed period, set to normal polarity and
enabled, and the lines `ain1` and `bin1` were acquired. -/
theorem probe_published_after_pwm_steps (env : Env) (hw0 : Hw) :
    (tb6612_probe env hw0).2.sysfs_group = true →
      (tb6612_probe env hw0).2.data.motor_a.speed_pwm = .dev .a ∧
      (tb6612_probe env hw0).2.data.motor_b.speed_pwm = .dev .b ∧
      (tb6612_probe env hw0).2.hw.pwm_a =
        { duty_cycle := 0, period := MOTOR_PWM_PERIOD, polarity := .PWM_POLARITY_NORMAL,
          enabled := true } ∧
      (tb6612_probe env hw0).2.hw.pwm_b =
        { duty_cycle := 0, period := MOTOR_PWM_PERIOD, polarity := .PWM_POLARITY_NORMAL,
          enabled := true } ∧
      (tb6612_probe env hw0).2.data.motor_a.in1_gpio = .desc .ain1 ∧
      (tb6612_probe env hw0).2.data.motor_b.in1_gpio = .desc .bin1 := by
  rcases hw0 with ⟨⟨da, pa, pola, ena⟩, ⟨db, pb, polb, enb⟩, p1, p2, p3, p4, p5⟩
  by_cases h1 : env.of_node = true
  swap
  · simp [h1, tb6612_probe, devm_pwm_get, pwm_config, pwm_set_polarity, pwm_enable, devm_gpiod_get, pwm_handle.IS_ERR, gpio_desc.IS_ERR, MOTOR_PWM_PERIOD, tb6612_data.zeroed, motor_data.zeroed, Hw.set_pwm, Hw.pwm, Hw.set_pin]
  by_cases h2 : env.devm_kzalloc = true
  swap
  · simp [h1, h2, tb6612_probe, devm_pwm_get, pwm_config, pwm_set_polarity, pwm_enable, devm_gpiod_get, pwm_handle.IS_ERR, gpio_desc.IS_ERR, MOTOR_PWM_PERIOD, tb6612_data.zeroed, motor_data.zeroed, Hw.set_pwm, Hw.pwm, Hw.set_pin]
  by_cases h3 : env.devm_pwm_get .a = 0
  swap
  · simp [h1, h2, h3, tb6612_probe, devm_pwm_get, pwm_config, pwm_set_polarity, pwm_enable, devm_gpiod_get, pwm_handle.IS_ERR, gpio_desc.IS_ERR, MOTOR_PWM_PERIOD, tb6612_data.zeroed, motor_data.zeroed, Hw.set_pwm, Hw.pwm, Hw.set_pin]
  by_cases h4 : env.chip_config ⟨⟨da, pa, pola, ena⟩, ⟨db, pb, polb, enb⟩, p1, p2, p3, p4, p5⟩ .a 0 10000000 = 0
  swap
  · simp [h1, h2, h3, h4, tb6612_probe, devm_pwm_get, pwm_config, pwm_set_polarity, pwm_enable, devm_gpiod_get, pwm_handle.IS_ERR, gpio_desc.IS_ERR, MOTOR_PWM_PERIOD, tb6612_data.zeroed, motor_data.zeroed, Hw.set_pwm, Hw.pwm, Hw.set_pin]
  by_cases h5 : env.chip_set_polarity ⟨⟨0, 10000000, pola, ena⟩, ⟨db, pb, polb, enb⟩, p1, p2, p3, p4, p5⟩ .a .PWM_POLARITY_NORMAL = 0
  swap
  · simp [h1, h2, h3, h4, h5, tb6612_probe, devm_pwm_get, pwm_config, pwm_set_polarity, pwm_enable, devm_gpiod_get, pwm_handle.IS_ERR, gpio_desc.IS_ERR, MOTOR_PWM_PERIOD, tb6612_data.zeroed, motor_data.zeroed, Hw.set_pwm, Hw.pwm, Hw.set_pin]
  by_cases h6 : env.chip_enable ⟨⟨0, 10000000, .PWM_POLARITY_NORMAL, ena⟩, ⟨db, pb, polb, enb⟩, p1, p2, p3, p4, p5⟩ .a = 0
  swap
  · simp [h1, h2, h3, h4, h5, h6, tb6612_probe, devm_pwm_get, pwm_config, pwm_set_polarity, pwm_enable, devm_gpiod_get, pwm_handle.IS_ERR, gpio_desc.IS_ERR, MOTOR_PWM_PERIOD, tb6612_data.zeroed, motor_data.zeroed, Hw.set_pwm, Hw.pwm, Hw.set_pin]
  by_cases h7 : env.devm_pwm_get .b = 0
  swap
  · simp [h1, h2, h3, h4, h5, h6, h7, tb6612_probe, devm_pwm_get, pwm_config, pwm_set_polarity, pwm_enable, devm_gpiod_get, pwm_handle.IS_ERR, gpio_desc.IS_ERR, MOTOR_PWM_PERIOD, tb6612_data.zeroed, motor_data.zeroed, Hw.set_pwm, Hw.pwm, Hw.set_pin]
  by_cases h8 : env.chip_config ⟨⟨0, 10000000, .PWM_POLARITY_NORMAL, true⟩, ⟨db, pb, polb, enb⟩, p1, p2, p3, p4, p5⟩ .b 0 10000000 = 0
  swap
  · simp [h1, h2, h3, h4, h5, h6, h7, h8, tb6612_probe, devm_pwm_get, pwm_config, pwm_set_polarity, pwm_enable, devm_gpiod_get, pwm_handle.IS_ERR, gpio_desc.IS_ERR, MOTOR_PWM_PERIOD, tb6612_data.zeroed, motor_data.zeroed, Hw.set_pwm, Hw.pwm, Hw.set_pin]
  by_cases h9 : env.chip_set_polarity ⟨⟨0, 10000000, .PWM_POLARITY_NORMAL, true⟩, ⟨0, 10000000, polb, enb⟩, p1, p2, p3, p4, p5⟩ .b .PWM_POLARITY_NORMAL = 0
  swap
  · simp [h1, h2, h3, h4, h5, h6, h7, h8, h9, tb6612_probe, devm_pwm_get, pwm_config, pwm_set_polarity, pwm_enable, devm_gpiod_get, pwm_handle.IS_ERR, gpio_desc.IS_ERR, MOTOR_PWM_PERIOD, tb6612_data.zeroed, motor_data.zeroed, Hw.set_pwm, Hw.pwm, Hw.set_pin]
  by_cases h10 : env.chip_enable ⟨⟨0, 10000000, .PWM_POLARITY_NORMAL, true⟩, ⟨0, 10000000, .PWM_POLARITY_NORMAL, enb⟩, p1, p2, p3, p4, p5⟩ .b = 0
  swap
  · simp [h1, h2, h3, h4, h5, h6, h7, h8, h9, h10, tb6612_probe, devm_pwm_get, pwm_config, pwm_set_polarity, pwm_enable, devm_gpiod_get, pwm_handle.IS_ERR, gpio_desc.IS_ERR, MOTOR_PWM_PERIOD, tb6612_data.zeroed, motor_data.zeroed, Hw.set_pwm, Hw.pwm, Hw.set_pin]
  by_cases h11 : env.devm_gpiod_get .ain1 = 0
  swap
  · simp [h1, h2, h3, h4, h5, h6, h7, h8, h9, h10, h11, tb6612_probe, devm_pwm_get, pwm_config, pwm_set_polarity, pwm_enable, devm_gpiod_get, pwm_handle.IS_ERR, gpio_desc.IS_ERR, MOTOR_PWM_PERIOD, tb6612_data.zeroed, motor_data.zeroed, Hw.set_pwm, Hw.pwm, Hw.set_pin]
  all_goals by_cases h12 : env.devm_gpiod_get .ain2 = 0
  all_goals by_cases h13 : env.devm_gpiod_get .bin1 = 0
  all_goals by_cases h14 : env.devm_gpiod_get .bin2 = 0
  all_goals by_cases h15 : env.devm_gpiod_get .stby = 0
  all_goals by_cases h16 : env.sysfs_create_group = 0
  all_goals simp [h1, h2, h3, h4, h5, h6, h7, h8, h9, h10, h11, h12, h13, h14, h15, h16, tb6612_probe, devm_pwm_get, pwm_config, pwm_set_polarity, pwm_enable, devm_gpiod_get, pwm_handle.IS_ERR, gpio_desc.IS_ERR, MOTOR_PWM_PERIOD, tb6612_data.zeroed, motor_data.zeroed, Hw.set_pwm, Hw.pwm, Hw.set_pin]

end TB6612
